import Mathlib

/-!
Verification of the insurance-claim-audit dashboard (src/streamlit.py).

This file shallowly embeds the data model and the operations of the
application and proves (or refutes) the specification's claims about
them.  External effects (the warehouse query, the analyst HTTP call,
the Cortex LLM calls) are modelled as explicit outcome parameters fed
to the embedded functions, so every definition is an executable Lean
function of the code's local control flow.
-/

namespace InsCoClaimsAudit

/-! ### Data model

A chat message is a role plus an ordered sequence of content blocks,
exactly the dict shape `{"role": ..., "content": [{"type": ...}, ...]}`
used by the source. -/

inductive ContentBlock where
  | text (text : String)
  | suggestions (options : List String)
  | sql (statement : String)
  deriving DecidableEq

structure ChatMessage where
  role : String
  content : List ContentBlock
  deriving DecidableEq

/-- The session state slots initialised in the "Main Application" section:
`messages`, `selected_claim`, `selected_semantic_model_path`. -/
structure SessionState where
  messages : List ChatMessage
  selected_claim : String
  selected_semantic_model_path : String
  deriving DecidableEq

/-! ### Analyst API adapter (`get_analyst_response`)

`_snowflake.send_snow_api_request` and `json.loads` are external; their
combined outcome is either a raised exception (network failure, timeout,
malformed JSON) or a response carrying a numeric status and a parsed
JSON body.  The parsed body's `"message"` key, when present, is used two
ways by the source: its `"content"` key (when present) is the block list
of a well-formed reply, and its string rendering is interpolated into
the error text by `parsed_content.get('message', 'Unknown error')`. -/

structure MessageField where
  content : Option (List ContentBlock)
  str : String
  deriving DecidableEq

structure ParsedContent where
  message : Option MessageField
  deriving DecidableEq

inductive ApiOutcome where
  | exception (msg : String)
  | response (status : Nat) (parsed : ParsedContent)
  deriving DecidableEq

def API_ENDPOINT : String := "/api/v2/cortex/analyst/message"

/-- Source: `API_TIMEOUT = 60000  # in milliseconds`. -/
def API_TIMEOUT : Nat := 60000

/-- The request body shaped by `get_analyst_response` before the call:
method, path, `{"messages": ..., "semantic_model_file": "@..."}` and the
timeout argument passed to `send_snow_api_request`. -/
structure ApiRequest where
  method : String
  path : String
  body_messages : List ChatMessage
  semantic_model_file : String
  timeout : Nat
  deriving DecidableEq

def build_analyst_request (messages : List ChatMessage)
    (semantic_model_path : String) : ApiRequest :=
  { method := "POST"
    path := API_ENDPOINT
    body_messages := messages
    semantic_model_file := "@" ++ semantic_model_path
    timeout := API_TIMEOUT }

/-- Embeds `parsed_content.get('message', 'Unknown error')` as a string. -/
def messageStr (pc : ParsedContent) : String :=
  match pc.message with
  | some mf => mf.str
  | none => "Unknown error"

/-- Function `get_analyst_response`: returns `(parsed_content, None)` when
`resp["status"] < 400`, `(parsed_content, error_msg)` otherwise, and
`(None, error_msg)` when anything in the `try` block raises. -/
def get_analyst_response (outcome : ApiOutcome) :
    Option ParsedContent × Option String :=
  match outcome with
  | .exception e =>
      (none, some ("An unexpected error occurred during the API call: " ++ e))
  | .response status parsed =>
      if status < 400 then
        (parsed, none)
      else
        (parsed,
          some ("API Error (Code: "
            ++ (toString status ++ ("): " ++ messageStr parsed))))

/-! ### Conversation state machine -/

/-- Function `process_user_input`: a falsy (empty) prompt is ignored; otherwise a
user message is appended and `st.rerun()` is triggered.  The boolean
records whether the rerun was requested. -/
def process_user_input (messages : List ChatMessage) (prompt : String) :
    List ChatMessage × Bool :=
  if prompt = "" then
    (messages, false)
  else
    (messages ++ [⟨"user", [ContentBlock.text prompt]⟩], true)

/-- The analyst message constructed by `get_and_process_analyst_response`
from the adapter's `(response, error_msg)` pair: the three branches of
its `if`/`elif`/`else`. -/
def mkAnalystMessage (response : Option ParsedContent)
    (error_msg : Option String) : ChatMessage :=
  match error_msg with
  | some e => ⟨"analyst", [ContentBlock.text ("üö® " ++ e)]⟩
  | none =>
      match response with
      | some r =>
          match r.message with
          | some mf =>
              match mf.content with
              | some blocks => ⟨"analyst", blocks⟩
              | none =>
                  ⟨"analyst",
                    [ContentBlock.text "Sorry, I received an empty response."]⟩
          | none =>
              ⟨"analyst",
                [ContentBlock.text "Sorry, I received an empty response."]⟩
      | none =>
          ⟨"analyst", [ContentBlock.text "Sorry, I received an empty response."]⟩

/-- Function `get_and_process_analyst_response`: calls the adapter on the current
transcript and appends exactly the constructed analyst message. -/
def get_and_process_analyst_response (messages : List ChatMessage)
    (outcome : ApiOutcome) : List ChatMessage :=
  let r := get_analyst_response outcome
  messages ++ [mkAnalystMessage r.1 r.2]

/-- The render-time check at the top of the main section:
`if st.session_state.messages and st.session_state.messages[-1]["role"] == "user":
get_and_process_analyst_response()`. -/
def render_check (messages : List ChatMessage) (outcome : ApiOutcome) :
    List ChatMessage :=
  match messages.getLast? with
  | some m =>
      if m.role = "user" then get_and_process_analyst_response messages outcome
      else messages
  | none => messages

/-- Callback `on_claim_change`: resets the chat message history. -/
def on_claim_change (st : SessionState) : SessionState :=
  { st with messages := [] }

/-- The claim-selector transition: the widget writes the new selection
into `selected_claim` and its `on_change` callback clears the
transcript. -/
def claim_selection_change (st : SessionState) (newClaim : String) :
    SessionState :=
  on_claim_change { st with selected_claim := newClaim }

/-! ### Data access layer

Each warehouse call either yields rows or raises; the raised case is the
`except` branch of the corresponding Python function. -/

inductive DbOutcome (α : Type) where
  | ok (rows : α)
  | exception (msg : String)
  deriving DecidableEq

/-- Function `get_claim_numbers`: `SELECT DISTINCT CLAIM_NO` (modelled by `dedup`
of the raw column, since the warehouse returns the distinct values) then
Python's `sorted`; the `except` branch returns `[]`.  Python's `sorted`
is modelled by insertion sort: on a linear order every sorted
permutation of a list is the same list, so the model is extensionally
the sorted output. -/
def get_claim_numbers (q : DbOutcome (List String)) : List String :=
  match q with
  | .exception _ => []
  | .ok col => List.insertionSort (· ≤ ·) col.dedup

/-- One row of the CLAIMS table as read by `get_claim_details`; every
column access goes through `.get(col, 'N/A')`, so a field is `none` when
the column is absent. -/
structure ClaimRow where
  claim_no : Option String
  line_of_business : Option String
  claim_status : Option String
  cause_of_loss : Option String
  loss_description : Option String
  deriving DecidableEq

/-- The dict returned by `get_claim_details`. -/
structure ClaimDetails where
  claim_details : String
  audit_questions : List String
  loss_description : Option String
  deriving DecidableEq

/-- The six audit-prompt templates interpolated with the claim number. -/
def audit_questions_for (claim_number : String) : List String :=
  [ "For claim " ++ claim_number ++ ", was a payment issued to the vendor 3-5 calendar days after the invoice was received? If yes, please provide details.",
    "For claim " ++ claim_number ++ ", was a payment issued to the vendor 8-13 calendar days after the invoice was received? If yes, please provide details.",
    "For claim " ++ claim_number ++ ", was a payment issued to the vendor 14-29 calendar days after the invoice was received? If yes, please provide details.",
    "For claim " ++ claim_number ++ ", was a payment issued to the vendor 30+ calendar days after the invoice was received? If yes, please provide details.",
    "For claim " ++ claim_number ++ ", did the total payment amount for that claim exceed the total reserved amount for that claim? Please respond yes or no and provide more details if yes",
    "For claim " ++ claim_number ++ ", was a payment made in excess of the performer authority? Please respond yes or no and provide more details if yes." ]

/-- The `details_text` block built from the first claim row and the
parsed-notes rows (`row.get('EXTRACTED_CONTENT', 'N/A')`). -/
def claim_details_text (claim_info : ClaimRow) (notes : List (Option String)) :
    String :=
  "**Claim Number:** " ++ claim_info.claim_no.getD "N/A" ++ "\n"
    ++ "**Line of Business:** " ++ claim_info.line_of_business.getD "N/A" ++ "\n"
    ++ "**Claim Status:** " ++ claim_info.claim_status.getD "N/A" ++ "\n"
    ++ "**Cause of Loss:** " ++ claim_info.cause_of_loss.getD "N/A" ++ "\n"
    ++ "**Loss Description:** " ++ claim_info.loss_description.getD "N/A" ++ "\n\n"
    ++ (if notes.isEmpty then
          "No parsed claim notes found.\n"
        else
          "**Claim Notes:**\n"
            ++ String.join (notes.map
                  (fun n => "- Content: " ++ n.getD "N/A" ++ "\n")))

/-- Function `get_claim_details`: mirrors the mutation order of the Python dict.
The default dict is `{"claim_details": "Error fetching details.",
"audit_questions": [], "loss_description": None}`; an empty claims
result returns early with `"No main claim details found."`; the
`loss_description` slot is written before the notes fetch, so a raise in
the notes fetch returns the default text with `loss_description`
already set. -/
def get_claim_details (claim_number : String)
    (claimsQ : DbOutcome (List ClaimRow))
    (notesQ : DbOutcome (List (Option String))) : ClaimDetails :=
  match claimsQ with
  | .exception _ =>
      { claim_details := "Error fetching details.", audit_questions := [],
        loss_description := none }
  | .ok [] =>
      { claim_details := "No main claim details found.", audit_questions := [],
        loss_description := none }
  | .ok (claim_info :: _) =>
      let ld := some (claim_info.loss_description.getD "N/A")
      match notesQ with
      | .exception _ =>
          { claim_details := "Error fetching details.", audit_questions := [],
            loss_description := ld }
      | .ok notes =>
          { claim_details := claim_details_text claim_info notes
            audit_questions := audit_questions_for claim_number
            loss_description := ld }

/-- A query result table; its column/row content is irrelevant to the
claims, only its presence is. -/
abbrev Table := List (List String)

/-- The driver exception raised by a failing query: a structured object
of which only `str(e)` escapes `get_query_exec_result`. -/
structure SnowparkSQLException where
  message : String
  error_code : Nat
  sqlstate : String
  deriving DecidableEq

/-- Embeds `str(e)` on the driver exception. -/
def sqlExceptionStr (e : SnowparkSQLException) : String := e.message

/-- Function `get_query_exec_result`: `(df, None)` on success, `(None, str(e))`
when the query raises. -/
def get_query_exec_result (outcome : Except SnowparkSQLException Table) :
    Option Table × Option String :=
  match outcome with
  | .ok df => (some df, none)
  | .error e => (none, some (sqlExceptionStr e))

/-! ### Similarity flow -/

/-- The outcome of the `AI_SIMILARITY` query inside
`get_similarity_score`: a raise, an empty result frame, or a scalar
score (modelled as a rational). -/
inductive SimilarityBackend where
  | failure (msg : String)
  | empty
  | score (s : ℚ)
  deriving DecidableEq

/-- Function `get_similarity_score`: returns the scalar only when the frame is
non-empty and the scalar is truthy (`result_df.iloc[0, 0]`), so a `0.0`
score is falsy and yields `None`; any raise yields `None`. -/
def get_similarity_score (b : SimilarityBackend) : Option ℚ :=
  match b with
  | .failure _ => none
  | .empty => none
  | .score s => if s ≠ 0 then some s else none

/-- Python truthiness of `claim_details.get("loss_description")`: falsy
when the key held `None` or an empty string. -/
def truthyOptStr (o : Option String) : Bool :=
  match o with
  | none => false
  | some s => s ≠ ""

/-- The similarity branch of the image-audit tab: the score is computed
only under `if claim_description and image_summary:`; otherwise no
score exists for the render pass. -/
def similarity_display (claim_description : Option String)
    (image_summary : String) (b : SimilarityBackend) : Option ℚ :=
  if truthyOptStr claim_description && image_summary ≠ "" then
    get_similarity_score b
  else
    none

/-! ### Case-insensitive substring search

Used to state that the injected analyst error text contains the word
"error" regardless of case. -/

def startsWithChars : List Char → List Char → Bool
  | [], _ => true
  | _ :: _, [] => false
  | p :: ps, c :: cs => p == c && startsWithChars ps cs

def hasSubChars (pat : List Char) : List Char → Bool
  | [] => pat.isEmpty
  | c :: cs => startsWithChars pat (c :: cs) || hasSubChars pat cs

def lowerChars (s : String) : List Char := s.data.map Char.toLower

/-- The text contains "error", compared case-insensitively. -/
def containsErrorCI (s : String) : Bool :=
  hasSubChars "error".data (lowerChars s)

theorem startsWithChars_append (pat xs ys : List Char)
    (h : startsWithChars pat xs = true) :
    startsWithChars pat (xs ++ ys) = true := by
  induction pat generalizing xs with
  | nil => rfl
  | cons p ps ih =>
      cases xs with
      | nil => simp [startsWithChars] at h
      | cons c cs =>
          simp only [List.cons_append, startsWithChars, Bool.and_eq_true] at h ⊢
          exact ⟨h.1, ih cs h.2⟩

theorem hasSubChars_nil_pat (ys : List Char) : hasSubChars [] ys = true := by
  cases ys <;> simp [hasSubChars, startsWithChars]

theorem hasSubChars_append (pat xs ys : List Char)
    (h : hasSubChars pat xs = true) :
    hasSubChars pat (xs ++ ys) = true := by
  induction xs with
  | nil =>
      have hpat : pat = [] := by
        cases pat with
        | nil => rfl
        | cons p ps => simp [hasSubChars] at h
      subst hpat
      exact hasSubChars_nil_pat ys
  | cons c cs ih =>
      simp only [List.cons_append, hasSubChars, Bool.or_eq_true] at h ⊢
      rcases h with h | h
      · exact Or.inl (by simpa using startsWithChars_append pat (c :: cs) ys h)
      · exact Or.inr (ih h)

theorem lowerChars_append (s t : String) :
    lowerChars (s ++ t) = lowerChars s ++ lowerChars t := by
  simp [lowerChars, String.data_append]

theorem string_append_assoc (a b c : String) : a ++ b ++ c = a ++ (b ++ c) := by
  apply String.ext
  simp [String.data_append]

theorem containsErrorCI_append_left (s t : String)
    (h : containsErrorCI s = true) : containsErrorCI (s ++ t) = true := by
  unfold containsErrorCI at h ⊢
  rw [lowerChars_append]
  exact hasSubChars_append _ _ _ h

/-! ### Helper facts about the state machine -/

/-- Every branch of `get_and_process_analyst_response` builds a message
with role `"analyst"`. -/
theorem mkAnalystMessage_role (r : Option ParsedContent) (e : Option String) :
    (mkAnalystMessage r e).role = "analyst" := by
  unfold mkAnalystMessage
  rcases e with - | e
  · rcases r with - | ⟨- | ⟨- | blocks, s⟩⟩ <;> rfl
  · rfl

/-! ### Claim theorems -/

/-- C1: for every transcript whose last entry has role "user", one
state-machine pass (the render-time check followed by
`get_and_process_analyst_response`) appends exactly one message, that
message has role "analyst", and nothing else changes — so the user
message is immediately followed by exactly one analyst message. -/
theorem user_message_followed_by_exactly_one_analyst_reply
    (messages : List ChatMessage) (outcome : ApiOutcome) (m : ChatMessage)
    (hlast : messages.getLast? = some m) (hrole : m.role = "user") :
    ∃ am : ChatMessage, am.role = "analyst" ∧
      render_check messages outcome = messages ++ [am] := by
  refine ⟨mkAnalystMessage (get_analyst_response outcome).1
      (get_analyst_response outcome).2, mkAnalystMessage_role _ _, ?_⟩
  unfold render_check
  rw [hlast]
  simp [hrole, get_and_process_analyst_response]

theorem user_message_followed_by_exactly_one_analyst_reply_witness :
    ([(⟨"user", [ContentBlock.text "hi"]⟩ : ChatMessage)].getLast?
        = some ⟨"user", [ContentBlock.text "hi"]⟩) ∧
    (⟨"user", [ContentBlock.text "hi"]⟩ : ChatMessage).role = "user" ∧
    ∃ am : ChatMessage, am.role = "analyst" ∧
      render_check [⟨"user", [ContentBlock.text "hi"]⟩] (.exception "boom")
        = [⟨"user", [ContentBlock.text "hi"]⟩] ++ [am] :=
  ⟨rfl, rfl,
    user_message_followed_by_exactly_one_analyst_reply
      [⟨"user", [ContentBlock.text "hi"]⟩] (.exception "boom")
      ⟨"user", [ContentBlock.text "hi"]⟩ rfl rfl⟩

/-- C2: whenever the adapter reports a failure (`get_analyst_response`
returns a non-null error message), the state machine still appends an
analyst message whose content is a single text block, that text contains
"error" case-insensitively, and the machine is back in `Idle`: the last
transcript entry now has role "analyst", not "user". -/
theorem adapter_failure_injects_error_text_and_returns_to_idle
    (messages : List ChatMessage) (outcome : ApiOutcome) (err : String)
    (h : (get_analyst_response outcome).2 = some err) :
    ∃ t : String,
      get_and_process_analyst_response messages outcome
        = messages ++ [⟨"analyst", [ContentBlock.text t]⟩] ∧
      containsErrorCI t = true ∧
      (get_and_process_analyst_response messages outcome).getLast?.map
          ChatMessage.role = some "analyst" := by
  cases outcome with
  | exception e =>
      refine ⟨"üö® "
          ++ ("An unexpected error occurred during the API call: " ++ e),
        rfl, ?_, ?_⟩
      · rw [← string_append_assoc]
        exact containsErrorCI_append_left _ _ (by decide)
      · simp [get_and_process_analyst_response, get_analyst_response,
          mkAnalystMessage, List.getLast?_concat]
  | response status parsed =>
      by_cases hs : status < 400
      · rw [get_analyst_response] at h
        simp [hs] at h
      · refine ⟨"üö® " ++ ("API Error (Code: "
            ++ (toString status ++ ("): " ++ messageStr parsed))), ?_, ?_, ?_⟩
        · simp [get_and_process_analyst_response, get_analyst_response, hs,
            mkAnalystMessage]
        · rw [← string_append_assoc]
          exact containsErrorCI_append_left _ _ (by decide)
        · simp [get_and_process_analyst_response, get_analyst_response, hs,
            mkAnalystMessage, List.getLast?_concat]

theorem adapter_failure_injects_error_text_and_returns_to_idle_witness :
    (get_analyst_response (.exception "timeout")).2
      = some "An unexpected error occurred during the API call: timeout" ∧
    ∃ t : String,
      get_and_process_analyst_response [] (.exception "timeout")
        = [] ++ [⟨"analyst", [ContentBlock.text t]⟩] ∧
      containsErrorCI t = true ∧
      (get_and_process_analyst_response [] (.exception "timeout")).getLast?.map
          ChatMessage.role = some "analyst" :=
  ⟨rfl,
    adapter_failure_injects_error_text_and_returns_to_idle [] (.exception "timeout")
      "An unexpected error occurred during the API call: timeout" rfl⟩

/-- C3: changing the claim selection clears the transcript, whatever the
session state and prior transcript length. -/
theorem claim_change_clears_transcript (st : SessionState) (newClaim : String) :
    (claim_selection_change st newClaim).messages.length = 0 := rfl

/-- C4 counterexample: a well-formed adapter reply whose
`message.content` list is empty is passed through verbatim, so the
appended analyst message has an empty content sequence. -/
theorem analyst_message_content_can_be_empty :
    get_and_process_analyst_response []
        (.response 200 ⟨some ⟨some [], "ok"⟩⟩)
      = [⟨"analyst", []⟩] := rfl

/-- C4 amended: the analyst message appended by
`get_and_process_analyst_response` has a non-empty content sequence for
every adapter result, except when the adapter succeeds (status < 400)
with a well-formed reply whose `message.content` list is itself empty —
that empty list is passed through unchanged. -/
theorem analyst_message_content_nonempty_unless_reply_content_empty
    (messages : List ChatMessage) (outcome : ApiOutcome) :
    ∃ am : ChatMessage,
      get_and_process_analyst_response messages outcome = messages ++ [am] ∧
      (am.content ≠ [] ∨
        ∃ status mstr, outcome = .response status ⟨some ⟨some [], mstr⟩⟩
          ∧ status < 400) := by
  refine ⟨mkAnalystMessage (get_analyst_response outcome).1
      (get_analyst_response outcome).2, rfl, ?_⟩
  cases outcome with
  | exception e => exact Or.inl (by simp [get_analyst_response, mkAnalystMessage])
  | response status parsed =>
      by_cases hs : status < 400
      · obtain ⟨msg⟩ := parsed
        cases msg with
        | none => exact Or.inl (by simp [get_analyst_response, hs, mkAnalystMessage])
        | some mf =>
            obtain ⟨c, mstr⟩ := mf
            cases c with
            | none =>
                exact Or.inl (by simp [get_analyst_response, hs, mkAnalystMessage])
            | some blocks =>
                cases blocks with
                | nil => exact Or.inr ⟨status, mstr, rfl, hs⟩
                | cons b bs =>
                    exact Or.inl (by simp [get_analyst_response, hs, mkAnalystMessage])
      · exact Or.inl (by simp [get_analyst_response, hs, mkAnalystMessage])

/-- C5 counterexample: a response with status 301 — outside 200-299 — is
treated as a success by `get_analyst_response`: the error slot is
`None`. -/
theorem status_301_not_reported_as_error :
    (get_analyst_response (.response 301 ⟨none⟩)).2 = none := rfl

/-- C5 amended: every adapter call carries the fixed 60-second
(60000 ms) timeout; a raised exception (including a timeout) or a
status of 400 or more yields an error message carrying the status code
and the reply's message text; every status strictly below 400 —
including 3xx — is treated as a success with no error. -/
theorem analyst_request_timeout_and_error_policy :
    API_TIMEOUT = 60 * 1000 ∧
    (∀ messages path, (build_analyst_request messages path).timeout = 60 * 1000) ∧
    (∀ outcome, (get_analyst_response outcome).2 = none ↔
      ∃ status parsed, outcome = .response status parsed ∧ status < 400) ∧
    (∀ status parsed, 400 ≤ status →
      (get_analyst_response (.response status parsed)).2
        = some ("API Error (Code: "
            ++ (toString status ++ ("): " ++ messageStr parsed)))) := by
  refine ⟨rfl, fun _ _ => rfl, ?_, ?_⟩
  · intro outcome
    cases outcome with
    | exception e => simp [get_analyst_response]
    | response status parsed =>
        by_cases hs : status < 400
        · simp only [get_analyst_response, if_pos hs]
          exact ⟨fun _ => ⟨status, parsed, rfl, hs⟩, fun _ => by trivial⟩
        · simp only [get_analyst_response, if_neg hs]
          constructor
          · intro hcontra
            exact absurd hcontra (by simp)
          · rintro ⟨s, p, heq, hlt⟩
            cases heq
            exact absurd hlt hs
  · intro status parsed hge
    simp [get_analyst_response, Nat.not_lt.mpr hge]

theorem analyst_request_timeout_and_error_policy_witness :
    400 ≤ 404 ∧
    (get_analyst_response (.response 404 ⟨none⟩)).2
      = some ("API Error (Code: "
          ++ (toString 404 ++ ("): " ++ messageStr ⟨none⟩))) :=
  ⟨by decide,
    analyst_request_timeout_and_error_policy.2.2.2 404 ⟨none⟩ (by decide)⟩

/-- C6 counterexample: when the backend similarity score is exactly 0.0
the truthiness test `result_df.iloc[0, 0]` fails and
`get_similarity_score` returns `None` — absence, not 0.0. -/
theorem similarity_zero_score_returns_none :
    get_similarity_score (.score 0) = none := by
  simp [get_similarity_score]

/-- C6 amended: whenever the backend succeeds with a score in [0, 1],
any score the flow reports lies in [0, 1]; when either input is empty
(falsy) the result is absent, not zero and not an error; but a backend
score of exactly 0.0 is also reported as absent (`None`), not as 0.0,
because the scalar is tested for truthiness. -/
theorem similarity_score_range_and_empty_inputs
    (claim_description : Option String) (image_summary : String)
    (s : ℚ) (h0 : 0 ≤ s) (h1 : s ≤ 1) :
    (∀ r, similarity_display claim_description image_summary (.score s) = some r
      → 0 ≤ r ∧ r ≤ 1) ∧
    (truthyOptStr claim_description = false ∨ image_summary = "" →
      ∀ b, similarity_display claim_description image_summary b = none) ∧
    (s = 0 → similarity_display claim_description image_summary (.score s) = none) := by
  refine ⟨?_, ?_, ?_⟩
  · intro r hr
    unfold similarity_display at hr
    split at hr
    · simp only [get_similarity_score] at hr
      split at hr
      · cases hr
        exact ⟨h0, h1⟩
      · exact Option.noConfusion hr
    · exact Option.noConfusion hr
  · intro hfalsy b
    unfold similarity_display
    have hg : (truthyOptStr claim_description && image_summary ≠ "") = false := by
      rcases hfalsy with h | h
      · simp [h]
      · simp [h]
    rw [hg]
    simp
  · intro h0'
    subst h0'
    unfold similarity_display get_similarity_score
    by_cases hg : truthyOptStr claim_description && image_summary ≠ ""
    · rw [if_pos hg]; simp
    · rw [if_neg hg]

theorem similarity_score_range_and_empty_inputs_witness :
    (0 : ℚ) ≤ 1 / 2 ∧ (1 : ℚ) / 2 ≤ 1 ∧
    (∀ r, similarity_display (some "water damage") "flooded basement"
        (.score (1 / 2)) = some r → 0 ≤ r ∧ r ≤ 1) :=
  ⟨by norm_num, by norm_num,
    (similarity_score_range_and_empty_inputs (some "water damage")
      "flooded basement" (1 / 2) (by norm_num) (by norm_num)).1⟩

/-- C7 counterexample: when no matching claim row exists,
`get_claim_details` returns early with the not-found record whose
`audit_questions` list is empty — not the six-template list. -/
theorem not_found_claim_has_no_audit_questions :
    (get_claim_details "CL-1001" (.ok []) (.ok [])).audit_questions = []
      ∧ (get_claim_details "CL-1001" (.ok []) (.ok [])).claim_details
          = "No main claim details found." := ⟨rfl, rfl⟩

/-- C7 amended: when a matching claim row exists and the notes fetch
succeeds, `get_claim_details` returns exactly six audit-prompt
templates, each interpolated with the claim number; when no matching
row exists it returns, without failing, a record flagged
"No main claim details found." whose template list is empty. -/
theorem claim_details_six_questions_or_not_found
    (claim_number : String) (rows : List ClaimRow)
    (notes : List (Option String)) :
    (∀ row rest, rows = row :: rest →
      (get_claim_details claim_number (.ok rows) (.ok notes)).audit_questions.length = 6 ∧
      ∀ q ∈ (get_claim_details claim_number (.ok rows) (.ok notes)).audit_questions,
        ∃ pre post, q = pre ++ claim_number ++ post) ∧
    (rows = [] →
      (get_claim_details claim_number (.ok rows) (.ok notes)).claim_details
          = "No main claim details found." ∧
      (get_claim_details claim_number (.ok rows) (.ok notes)).audit_questions = []) := by
  constructor
  · rintro row rest rfl
    constructor
    · rfl
    · intro q hq
      simp only [get_claim_details, audit_questions_for, List.mem_cons,
        List.not_mem_nil, or_false] at hq
      rcases hq with h | h | h | h | h | h <;> exact ⟨"For claim ", _, h⟩
  · rintro rfl
    exact ⟨rfl, rfl⟩

theorem claim_details_six_questions_or_not_found_witness :
    ([(⟨none, none, none, none, none⟩ : ClaimRow)]
        = (⟨none, none, none, none, none⟩ : ClaimRow) :: []) ∧
    (get_claim_details "CL-1001"
        (.ok [⟨none, none, none, none, none⟩]) (.ok [])).audit_questions.length = 6 :=
  ⟨rfl,
    ((claim_details_six_questions_or_not_found "CL-1001"
        [⟨none, none, none, none, none⟩] []).1
      ⟨none, none, none, none, none⟩ [] rfl).1⟩

/-- C8: whatever the backing claims-table content (and also on a failed
fetch), `get_claim_numbers` returns a list sorted ascending with no
duplicates. -/
theorem claim_numbers_sorted_and_deduplicated (q : DbOutcome (List String)) :
    (get_claim_numbers q).Sorted (· ≤ ·) ∧ (get_claim_numbers q).Nodup := by
  cases q with
  | exception m => exact ⟨List.sorted_nil, List.nodup_nil⟩
  | ok col =>
      constructor
      · exact List.sorted_insertionSort _ col.dedup
      · exact (List.perm_insertionSort (· ≤ ·) col.dedup).symm.nodup
          (List.nodup_dedup col)

/-- C9: for every query outcome, `get_query_exec_result` yields exactly
one of a table (with no error) or an error (with no table), and the
error is a plain string — only `str(e)` of the driver exception
escapes. -/
theorem query_result_table_xor_error_string
    (outcome : Except SnowparkSQLException Table) :
    ((get_query_exec_result outcome).1.isSome
        ∧ (get_query_exec_result outcome).2 = none) ∨
    ((get_query_exec_result outcome).1 = none
        ∧ ∃ s : String, (get_query_exec_result outcome).2 = some s) := by
  cases outcome with
  | ok df => exact Or.inl ⟨rfl, rfl⟩
  | error e => exact Or.inr ⟨rfl, sqlExceptionStr e, rfl⟩

/-- C10: a falsy (empty) prompt submitted through `process_user_input`
leaves the transcript unchanged and triggers no rerun toward the
analyst service. -/
theorem empty_prompt_leaves_transcript_unchanged (messages : List ChatMessage) :
    process_user_input messages "" = (messages, false) := rfl

end InsCoClaimsAudit
